import Mathlib

/-!
Verification of the IV-spike notifier repository.

The Python sources under `app/` are shallowly embedded below:
numbers become real numbers, Python exceptions become an explicit
`Except PyErr` result, and `try/except` blocks become total matches on
that result.  `scipy.optimize.brentq` is embedded from its C source
(`Zeros/brentq.c` in scipy), and `scipy.stats.norm.cdf` is embedded as
the standard normal cumulative distribution integral.
-/

namespace IVSpike

open MeasureTheory Real Set

/-- Python exception kinds raised by the embedded code. -/
inductive PyErr where
  | valueError : PyErr
  | zeroDivisionError : PyErr
  | runtimeError : PyErr
deriving DecidableEq, Repr

/-- Python `a / b`: raises `ZeroDivisionError` on a zero denominator. -/
noncomputable def pyDiv (a b : ℝ) : Except PyErr ℝ :=
  if b = 0 then .error .zeroDivisionError else .ok (a / b)

/-- Python `math.log x`: raises `ValueError` for non-positive arguments. -/
noncomputable def pyLog (x : ℝ) : Except PyErr ℝ :=
  if x ≤ 0 then .error .valueError else .ok (Real.log x)

/-- Python `math.sqrt x`: raises `ValueError` for negative arguments. -/
noncomputable def pySqrt (x : ℝ) : Except PyErr ℝ :=
  if x < 0 then .error .valueError else .ok (Real.sqrt x)

/-- The standard normal density. -/
noncomputable def norm_pdf (t : ℝ) : ℝ :=
  Real.exp (-(t ^ 2) / 2) / Real.sqrt (2 * Real.pi)

/-- Embedding of `scipy.stats.norm.cdf`: the standard normal cumulative distribution. -/
noncomputable def norm_cdf (x : ℝ) : ℝ :=
  ∫ t in Iic x, norm_pdf t

/-- The `d1` term computed inside `black_scholes_price` and `option_delta`
(`app/iv_calculator.py`). -/
noncomputable def d1val (S K T r sigma : ℝ) : ℝ :=
  (Real.log (S / K) + (r + sigma ^ 2 / 2) * T) / (sigma * Real.sqrt T)

/-- Embedding of `black_scholes_price` from `app/iv_calculator.py`.  For `T ≤ 0` it
returns the intrinsic value; otherwise it computes `d1`, `d2` and the
discounted expectation.  Any `option_type` other than `"call"` takes the
put branch, exactly as the Python `if/else` does. -/
noncomputable def black_scholes_price (S K T r sigma : ℝ) (option_type : String) :
    Except PyErr ℝ :=
  if T ≤ 0 then
    .ok (if option_type = "call" then max 0 (S - K) else max 0 (K - S))
  else
    match pyDiv S K with
    | .error e => .error e
    | .ok sk =>
      match pyLog sk with
      | .error e => .error e
      | .ok lsk =>
        match pySqrt T with
        | .error e => .error e
        | .ok sqT =>
          match pyDiv (lsk + (r + sigma ^ 2 / 2) * T) (sigma * sqT) with
          | .error e => .error e
          | .ok d1 =>
            let d2 := d1 - sigma * sqT
            if option_type = "call" then
              .ok (S * norm_cdf d1 - K * Real.exp (-r * T) * norm_cdf d2)
            else
              .ok (K * Real.exp (-r * T) * norm_cdf (-d2) - S * norm_cdf (-d1))

/-- Embedding of `option_delta` from `app/iv_calculator.py`: `norm.cdf d1` for calls and
`-norm.cdf (-d1)` otherwise. -/
noncomputable def option_delta (S K T r sigma : ℝ) (option_type : String) :
    Except PyErr ℝ :=
  match pyDiv S K with
  | .error e => .error e
  | .ok sk =>
    match pyLog sk with
    | .error e => .error e
    | .ok lsk =>
      match pySqrt T with
      | .error e => .error e
      | .ok sqT =>
        match pyDiv (lsk + (r + sigma ^ 2 / 2) * T) (sigma * sqT) with
        | .error e => .error e
        | .ok d1 =>
          if option_type = "call" then .ok (norm_cdf d1)
          else .ok (-(norm_cdf (-d1)))

/-- The `xtol` default of `scipy.optimize.brentq`. -/
noncomputable def brentq_xtol : ℝ := 2e-12

/-- The `rtol` default of `scipy.optimize.brentq` (four times the double-precision
machine epsilon). -/
noncomputable def brentq_rtol : ℝ := 4 / 2 ^ 52

/-- The iteration state of scipy's Brent root finder (`Zeros/brentq.c`). -/
structure BrentState where
  xpre : ℝ
  fpre : ℝ
  xcur : ℝ
  fcur : ℝ
  xblk : ℝ
  fblk : ℝ
  spre : ℝ
  scur : ℝ

/-- The main loop of scipy's `brentq` (`Zeros/brentq.c`), embedded with the
remaining iteration budget as fuel.  Exhausting the budget is the `CONVERR`
outcome, which the Python wrapper raises as a `RuntimeError`. -/
noncomputable def brentq_iter (f : ℝ → Except PyErr ℝ) :
    Nat → BrentState → Except PyErr ℝ
  | 0, _ => .error .runtimeError
  | n + 1, s0 =>
    let s1 :=
      if s0.fpre * s0.fcur < 0 then
        { s0 with xblk := s0.xpre, fblk := s0.fpre,
                  spre := s0.xcur - s0.xpre, scur := s0.xcur - s0.xpre }
      else s0
    let s2 :=
      if |s1.fblk| < |s1.fcur| then
        { s1 with xpre := s1.xcur, xcur := s1.xblk, xblk := s1.xcur,
                  fpre := s1.fcur, fcur := s1.fblk, fblk := s1.fcur }
      else s1
    let delta := (brentq_xtol + brentq_rtol * |s2.xcur|) / 2
    let sbis := (s2.xblk - s2.xcur) / 2
    if s2.fcur = 0 ∨ |sbis| < delta then .ok s2.xcur
    else
      let steps :=
        if |s2.spre| > delta ∧ |s2.fcur| < |s2.fpre| then
          let stry :=
            if s2.xpre = s2.xblk then
              -s2.fcur * (s2.xcur - s2.xpre) / (s2.fcur - s2.fpre)
            else
              let dpre := (s2.fpre - s2.fcur) / (s2.xpre - s2.xcur)
              let dblk := (s2.fblk - s2.fcur) / (s2.xblk - s2.xcur)
              (-s2.fcur * (s2.fblk * dblk - s2.fpre * dpre) /
                (dblk * dpre * (s2.fblk - s2.fpre)))
          if 2 * |stry| < min (|s2.spre|) (3 * |sbis| - delta) then (s2.scur, stry) else (sbis, sbis)
        else (sbis, sbis)
      let xcur2 :=
        if |steps.2| > delta then s2.xcur + steps.2
        else if sbis > 0 then s2.xcur + delta else s2.xcur - delta
      match f xcur2 with
      | .error e => .error e
      | .ok fc =>
        brentq_iter f n
          { xpre := s2.xcur, fpre := s2.fcur, xcur := xcur2, fcur := fc,
            xblk := s2.xblk, fblk := s2.fblk, spre := steps.1, scur := steps.2 }

/-- Embedding of `scipy.optimize.brentq f xa xb` with an iteration budget: evaluates the
objective at both bracket ends, rejects a bracket without a sign change with
a `ValueError`, returns an endpoint that is already a root, and otherwise
runs the Brent iteration. -/
noncomputable def brentq (f : ℝ → Except PyErr ℝ) (xa xb : ℝ) (fuel : Nat) :
    Except PyErr ℝ :=
  match f xa with
  | .error e => .error e
  | .ok fa =>
    match f xb with
    | .error e => .error e
    | .ok fb =>
      if fa * fb > 0 then .error .valueError
      else if fa = 0 then .ok xa
      else if fb = 0 then .ok xb
      else brentq_iter f fuel ⟨xa, fa, xb, fb, 0, 0, 0, 0⟩

/-- The root objective built inside `implied_volatility`
(`app/iv_calculator.py`): the model price minus the market price. -/
noncomputable def ivObjective (market_price S K T r : ℝ) (option_type : String)
    (sigma : ℝ) : Except PyErr ℝ :=
  (black_scholes_price S K T r sigma option_type).map (fun y => y - market_price)

/-- The body of the `try` block of `implied_volatility`: the brentq call on
the objective over the bracket `[0.0001, 5.0]` with `maxiter=1000`. -/
noncomputable def implied_volatility_raw (market_price S K T r : ℝ)
    (option_type : String) : Except PyErr ℝ :=
  brentq (ivObjective market_price S K T r option_type) 0.0001 5.0 1000

/-- Embedding of `implied_volatility` from `app/iv_calculator.py`: the catch-all
`except` around the solver is the total match turning every error into
`None`. -/
noncomputable def implied_volatility (market_price S K T r : ℝ)
    (option_type : String) : Option ℝ :=
  match implied_volatility_raw market_price S K T r option_type with
  | .ok v => some v
  | .error _ => none

/-- One option record as consumed by `filter_options_by_delta`
(`app/detector.py`): the dict keys that the detector reads. -/
structure OptionQuote where
  symbol : String
  strike : ℝ
  expiry : String
  option_type : String
  iv : ℝ
  last_price : ℝ

/-- An element of the list built by `filter_options_by_delta`: the original
dict extended with the computed `iv` and `delta`. -/
structure FilteredOption where
  opt : OptionQuote
  iv : ℝ
  delta : ℝ

/-- Embedding of `filter_options_by_delta` from `app/detector.py`: keeps the options whose
implied volatility is found and whose delta magnitude lies in `[0.38, 0.42]`.
Exceptions raised by `option_delta` propagate, as in the Python loop. -/
noncomputable def filter_options_by_delta :
    List OptionQuote → ℝ → ℝ → ℝ → Except PyErr (List FilteredOption)
  | [], _, _, _ => .ok []
  | o :: rest, S, T, r =>
    match implied_volatility o.last_price S o.strike T r o.option_type with
    | none => filter_options_by_delta rest S T r
    | some iv =>
      match option_delta S o.strike T r iv o.option_type with
      | .error e => .error e
      | .ok delta =>
        match filter_options_by_delta rest S T r with
        | .error e => .error e
        | .ok tail =>
          if 0.38 ≤ |delta| ∧ |delta| ≤ 0.42 then .ok (⟨o, iv, delta⟩ :: tail)
          else .ok tail

/-- Embedding of `detect_spikes` from `app/detector.py`: delegates to
`filter_options_by_delta` with the placeholder context `S=0, T=0, r=0`. -/
noncomputable def detect_spikes (options_data : List OptionQuote) :
    Except PyErr (List FilteredOption) :=
  filter_options_by_delta options_data 0 0 0

/-- The `IVSpikeAlert` dataclass of `app/detector.py`. -/
structure IVSpikeAlert where
  symbol : String
  strike : Int
  expiry : String
  option_type : String
  old_iv : ℝ
  new_iv : ℝ
  change_percent : ℝ
  timestamp : String

/-- Embedding of `get_recent_spikes` from `app/detector.py`: returns the empty list for
every limit. -/
def get_recent_spikes (_limit : Nat) : List IVSpikeAlert := []

/-- Embedding of `get_detector_stats` from `app/detector.py` returns an empty mapping. -/
def get_detector_stats : List (String × ℝ) := []

/-- Embedding of `DataSimulator._get_base_iv` from `app/data_simulator.py`: the per-symbol
base IV dictionary with default `25.0`. -/
noncomputable def get_base_iv (symbol : String) : ℝ :=
  if symbol = "NIFTY" then 20.0
  else if symbol = "BANKNIFTY" then 25.0
  else if symbol = "FINNIFTY" then 22.0
  else if symbol = "SENSEX" then 18.0
  else if symbol = "RELIANCE" then 28.0
  else if symbol = "TCS" then 24.0
  else if symbol = "HDFCBANK" then 26.0
  else if symbol = "INFY" then 30.0
  else 25.0

/-- Python `random.uniform a b` modeled by its CPython formula `a + (b - a) * t`
where `t` is the underlying unit draw of `random.random()`. -/
noncomputable def uniform_from (a b t : ℝ) : ℝ := a + (b - a) * t

/-- The random draws consumed by one `_simulate_iv_change` step: `r1` is the
`random.random()` deciding small versus large move, `r2` the one deciding the
direction of a large move, and `t` the unit draw behind the single
`random.uniform` call that actually executes. -/
structure StepDraw where
  r1 : ℝ
  r2 : ℝ
  t : ℝ

/-- The draws of one step come from `random.random()` (unit interval) and a
unit draw for `random.uniform`. -/
def ValidDraw (d : StepDraw) : Prop :=
  0 ≤ d.r1 ∧ d.r1 < 1 ∧ 0 ≤ d.r2 ∧ d.r2 < 1 ∧ 0 ≤ d.t ∧ d.t ≤ 1

/-- Embedding of `DataSimulator._simulate_iv_change` from `app/data_simulator.py`:
with `r1 < 0.85` a small relative change uniform in `[-5%, +5%]`, otherwise a
large move that is upward in `[+5%, +25%]` when `r2 < 0.7` and downward in
`[-15%, -5%]` otherwise; the result is clamped into
`[0.5 * base_iv, 2.5 * base_iv]`. -/
noncomputable def simulate_iv_change (current_iv : ℝ) (symbol : String)
    (d : StepDraw) : ℝ :=
  let change_percent :=
    if d.r1 < 0.85 then uniform_from (-0.05) 0.05 d.t
    else if d.r2 < 0.7 then uniform_from 0.05 0.25 d.t
    else uniform_from (-0.15) (-0.05) d.t
  let new_iv := current_iv * (1 + change_percent)
  let min_iv := get_base_iv symbol * 0.5
  let max_iv := get_base_iv symbol * 2.5
  max min_iv (min max_iv new_iv)

/-- The lazy initialization of a contract's IV in
`DataSimulator.fetch_option_data`: `max(5.0, base_iv + uniform(-5.0, 5.0))`,
with `u` the sampled noise. -/
noncomputable def init_iv (symbol : String) (u : ℝ) : ℝ :=
  max 5.0 (get_base_iv symbol + u)

/-- The IV stored for one contract after lazy initialization with noise `u`
followed by one `_simulate_iv_change` update per draw in `ds`, each update
writing its result back into `previous_ivs` as `fetch_option_data` does. -/
noncomputable def run_iv (symbol : String) (u : ℝ) (ds : List StepDraw) : ℝ :=
  ds.foldl (fun iv d => simulate_iv_change iv symbol d) (init_iv symbol u)

/-- The `try/except` at the boundary of `DataSimulator.fetch_option_data`:
the outcome of the cycle body is passed explicitly, and an error outcome is
caught and turned into the empty quote list. -/
def fetch_cycle_boundary (body : Except PyErr (List OptionQuote)) :
    List OptionQuote :=
  match body with
  | .ok quotes => quotes
  | .error _ => []

/-- Outcome of one channel's `send_message` inside
`NotificationManager.send_notification` (`app/notifier.py`): a returned
boolean, or a raised exception. -/
inductive ChanOutcome where
  | ret : Bool → ChanOutcome
  | exn : ChanOutcome
deriving DecidableEq, Repr

/-- A channel send counts as a success exactly when `send_message`
returned `True`. -/
def chan_success : ChanOutcome → Bool
  | .ret true => true
  | .ret false => false
  | .exn => false

/-- One iteration of the channel loop in
`NotificationManager.send_notification`: a `True` return sets the success
flag and bumps the sent counter; a `False` return or a raised exception bumps
the failed counter. -/
def send_step (acc : Bool × Nat × Nat) (o : ChanOutcome) : Bool × Nat × Nat :=
  match o with
  | .ret true => (true, acc.2.1 + 1, acc.2.2)
  | .ret false => (acc.1, acc.2.1, acc.2.2 + 1)
  | .exn => (acc.1, acc.2.1, acc.2.2 + 1)

/-- Embedding of `NotificationManager.send_notification` from `app/notifier.py`, as a
function of the per-channel outcomes for this message and the current
`sent_count`/`failed_count`: returns the aggregate success flag and the
updated counters.  An empty channel list returns `False` without touching
the counters. -/
def send_notification (outcomes : List ChanOutcome) (sent failed : Nat) :
    Bool × Nat × Nat :=
  if outcomes.isEmpty then (false, sent, failed)
  else outcomes.foldl send_step (false, sent, failed)

/-- The value `black_scholes_price` yields for an option under the detector's
placeholder context `S=0, T=0`: the immediate-expiry intrinsic value at spot
zero, depending on the option's type string. -/
noncomputable def zero_spot_price (o : OptionQuote) : ℝ :=
  if o.option_type = "call" then max 0 (0 - o.strike) else max 0 (o.strike - 0)

/-!  ### Helper lemmas  -/

lemma base_iv_ge (s : String) : 18 ≤ get_base_iv s := by
  unfold get_base_iv
  split_ifs <;> norm_num

lemma simulate_iv_change_eq (cur : ℝ) (s : String) (d : StepDraw) :
    simulate_iv_change cur s d =
      max (get_base_iv s * 0.5) (min (get_base_iv s * 2.5)
        (cur * (1 + (if d.r1 < 0.85 then uniform_from (-0.05) 0.05 d.t
          else if d.r2 < 0.7 then uniform_from 0.05 0.25 d.t
          else uniform_from (-0.15) (-0.05) d.t)))) := rfl

lemma simulate_iv_change_bounds (cur : ℝ) (s : String) (d : StepDraw) :
    get_base_iv s * 0.5 ≤ simulate_iv_change cur s d ∧
    simulate_iv_change cur s d ≤ get_base_iv s * 2.5 := by
  have hb := base_iv_ge s
  rw [simulate_iv_change_eq]
  refine ⟨le_max_left _ _, max_le (by nlinarith) (min_le_left _ _)⟩

lemma foldl_iv_bounds (s : String) (ds : List StepDraw) (iv : ℝ)
    (h1 : get_base_iv s * 0.5 ≤ iv) (h2 : iv ≤ get_base_iv s * 2.5) :
    get_base_iv s * 0.5 ≤ ds.foldl (fun x d => simulate_iv_change x s d) iv ∧
    ds.foldl (fun x d => simulate_iv_change x s d) iv ≤ get_base_iv s * 2.5 := by
  induction ds generalizing iv with
  | nil => exact ⟨h1, h2⟩
  | cons d rest ih =>
    simpa using ih (simulate_iv_change iv s d)
      (simulate_iv_change_bounds iv s d).1 (simulate_iv_change_bounds iv s d).2

lemma init_iv_bounds (s : String) (u : ℝ) (hu1 : -5 ≤ u) (hu2 : u ≤ 5) :
    get_base_iv s * 0.5 ≤ init_iv s u ∧ init_iv s u ≤ get_base_iv s * 2.5 := by
  have hb := base_iv_ge s
  unfold init_iv
  constructor
  · exact le_trans (by nlinarith) (le_max_right _ _)
  · exact max_le (by nlinarith) (by nlinarith)

lemma send_foldl (outcomes : List ChanOutcome) (b : Bool) (s f : Nat) :
    outcomes.foldl send_step (b, s, f) =
      (b || outcomes.any chan_success,
       s + outcomes.countP chan_success,
       f + outcomes.countP (fun o => !chan_success o)) := by
  induction outcomes generalizing b s f with
  | nil => simp
  | cons o rest ih =>
    cases o with
    | ret v =>
      cases v <;>
        simp [send_step, ih, chan_success, List.countP_cons, Nat.add_assoc,
          Nat.add_comm 1]
    | exn =>
      simp [send_step, ih, chan_success, List.countP_cons, Nat.add_assoc,
        Nat.add_comm 1]

lemma countP_success_add_not (outcomes : List ChanOutcome) :
    outcomes.countP chan_success +
      outcomes.countP (fun o => !chan_success o) = outcomes.length := by
  induction outcomes with
  | nil => simp
  | cons o rest ih =>
    by_cases h : chan_success o = true <;>
      simp [List.countP_cons, h, ih] <;> omega

lemma bs_price_zero_spot (K r sigma : ℝ) (t : String) :
    black_scholes_price 0 K 0 r sigma t =
      Except.ok (if t = "call" then max 0 (0 - K) else max 0 (K - 0)) := by
  simp [black_scholes_price]

lemma ivObjective_zero_spot (p K r sigma : ℝ) (t : String) :
    ivObjective p 0 K 0 r t sigma =
      Except.ok ((if t = "call" then max 0 (0 - K) else max 0 (K - 0)) - p) := by
  simp [ivObjective, bs_price_zero_spot, Except.map]

lemma implied_volatility_zero_spot_none (p K r : ℝ) (t : String)
    (h : p ≠ if t = "call" then max 0 (0 - K) else max 0 (K - 0)) :
    implied_volatility p 0 K 0 r t = none := by
  have hc : 0 < ((if t = "call" then max 0 (0 - K) else max 0 (K - 0)) - p) *
      ((if t = "call" then max 0 (0 - K) else max 0 (K - 0)) - p) :=
    mul_self_pos.mpr (sub_ne_zero.mpr (Ne.symm h))
  simp only [implied_volatility, implied_volatility_raw, brentq,
    ivObjective_zero_spot, if_pos hc, gt_iff_lt]

lemma filter_zero_spot (opts : List OptionQuote)
    (h : ∀ o ∈ opts, o.last_price ≠ zero_spot_price o) :
    filter_options_by_delta opts 0 0 0 = Except.ok [] := by
  induction opts with
  | nil => rfl
  | cons o rest ih =>
    have hiv : implied_volatility o.last_price 0 o.strike 0 0 o.option_type =
        none :=
      implied_volatility_zero_spot_none _ _ _ _ (h o (List.mem_cons_self o rest))
    have htail := ih (fun x hx => h x (List.mem_cons_of_mem o hx))
    simp only [filter_options_by_delta, hiv]
    exact htail

/-!  ### Claim theorems  -/

/-- Claim C1 (code evaluation): on the spec's detector scenario — a cycle
containing one quote whose IV moved from a previously recorded 20.0 to 24.0
(+20%, over the default 10% threshold) — the repository's `detect_spikes`
returns zero alerts instead of the one required SpikeAlert: it ignores IV
history entirely and runs the delta filter with the placeholder context
`S=0, T=0, r=0`, under which no option is ever kept. -/
theorem C1_detector_scenario_code_eval :
    detect_spikes [⟨"NIFTY", 19000, "2025-06-12", "CE", 24.0, 130.0⟩] =
      Except.ok [] := by
  apply filter_zero_spot
  intro o ho
  rw [List.mem_singleton] at ho
  subst ho
  simp only [zero_spot_price]
  rw [if_neg (by decide)]
  norm_num

/-- Claim C2 (counterexample): `detect_spikes` does not return the empty
list for every input.  For an option with `last_price = 0` the constant
objective is zero at the bracket ends, so `brentq` returns the lower bracket
endpoint `0.0001` (hence `implied_volatility` does not fail), and
`option_delta` then raises a `ValueError` from `log(0/strike)`, which
propagates out of `detect_spikes`. -/
theorem C2_counterexample_raises :
    detect_spikes [⟨"X", 100, "2025-06-12", "call", 20.0, 0⟩] =
      Except.error PyErr.valueError ∧
    detect_spikes [⟨"X", 100, "2025-06-12", "call", 20.0, 0⟩] ≠
      Except.ok [] ∧
    implied_volatility 0 0 100 0 0 "call" = some 0.0001 := by
  have hiv : implied_volatility 0 0 100 0 0 "call" = some 0.0001 := by
    simp [implied_volatility, implied_volatility_raw, brentq,
      ivObjective_zero_spot]
  have hdelta : option_delta 0 100 0 0 0.0001 "call" =
      Except.error PyErr.valueError := by
    have h1 : pyDiv 0 100 = Except.ok 0 := by norm_num [pyDiv]
    have h2 : pyLog 0 = Except.error PyErr.valueError := by
      norm_num [pyLog]
    simp [option_delta, h1, h2]
  refine ⟨?_, ?_, hiv⟩ <;>
    simp [detect_spikes, filter_options_by_delta, hiv, hdelta]

/-- Claim C2 (amended): whenever no option's `last_price` equals the price
the placeholder context assigns it (`max(0, -strike)` for type `"call"`,
`max(0, strike)` otherwise — in particular whenever strikes are positive and
call prices are nonzero), `detect_spikes` returns the empty list: under
`S=0, T=0, r=0` the price is constant in sigma, the objective has no sign
change over the bracket, `implied_volatility` returns `None` for every
option, nothing passes the delta filter, and no alert is produced; and
`get_recent_spikes` returns the empty list for every limit. -/
theorem C2_amended_empty (opts : List OptionQuote)
    (h : ∀ o ∈ opts, o.last_price ≠ zero_spot_price o) :
    detect_spikes opts = Except.ok [] ∧
    ∀ limit : Nat, get_recent_spikes limit = [] :=
  ⟨filter_zero_spot opts h, fun _ => rfl⟩

/-- Witness for the amended C2 at a concrete input. -/
theorem C2_amended_empty_witness :
    detect_spikes [⟨"BANKNIFTY", 100, "2025-06-19", "PE", 25.0, 50.0⟩] =
      Except.ok [] ∧
    ∀ limit : Nat, get_recent_spikes limit = [] := by
  apply C2_amended_empty
  intro o ho
  rw [List.mem_singleton] at ho
  subst ho
  simp only [zero_spot_price]
  rw [if_neg (by decide)]
  norm_num

/-- Claim C5: every IV value stored in the feed's IV state map is strictly
positive and lies in `[0.5 * base_iv(symbol), 2.5 * base_iv(symbol)]`, both
immediately after a contract's lazy initialization (base IV plus noise in
`[-5, 5]`, floored at 5) and after every subsequent
`_simulate_iv_change` update step, for any number of steps. -/
theorem C5_iv_state_invariant (s : String) (u : ℝ) (hu1 : -5 ≤ u) (hu2 : u ≤ 5)
    (ds : List StepDraw) :
    (0 < init_iv s u ∧ get_base_iv s * 0.5 ≤ init_iv s u ∧
      init_iv s u ≤ get_base_iv s * 2.5) ∧
    (0 < run_iv s u ds ∧ get_base_iv s * 0.5 ≤ run_iv s u ds ∧
      run_iv s u ds ≤ get_base_iv s * 2.5) := by
  have hb := base_iv_ge s
  have hinit := init_iv_bounds s u hu1 hu2
  have hrun : get_base_iv s * 0.5 ≤ run_iv s u ds ∧
      run_iv s u ds ≤ get_base_iv s * 2.5 :=
    foldl_iv_bounds s ds (init_iv s u) hinit.1 hinit.2
  exact ⟨⟨by nlinarith [hinit.1], hinit.1, hinit.2⟩,
    ⟨by nlinarith [hrun.1], hrun.1, hrun.2⟩⟩

/-- Witness for C5 at a concrete symbol, noise and draw list. -/
theorem C5_iv_state_invariant_witness :
    (0 < init_iv "NIFTY" 0 ∧
      get_base_iv "NIFTY" * 0.5 ≤ init_iv "NIFTY" 0 ∧
      init_iv "NIFTY" 0 ≤ get_base_iv "NIFTY" * 2.5) ∧
    (0 < run_iv "NIFTY" 0 [⟨1/2, 1/2, 1/2⟩] ∧
      get_base_iv "NIFTY" * 0.5 ≤ run_iv "NIFTY" 0 [⟨1/2, 1/2, 1/2⟩] ∧
      run_iv "NIFTY" 0 [⟨1/2, 1/2, 1/2⟩] ≤ get_base_iv "NIFTY" * 2.5) :=
  C5_iv_state_invariant "NIFTY" 0 (by norm_num) (by norm_num) [⟨1/2, 1/2, 1/2⟩]

/-- Claim C6: one `_simulate_iv_change` step follows the biased random walk
exactly.  The small-move branch is taken exactly when the unit draw `r1` is
below `0.85` (probability 85%) and its relative change lies in
`[-0.05, 0.05]`; otherwise the large-move branch splits on the unit draw `r2`
below `0.7` (70% of large moves) into an upward change in `[0.05, 0.25]` and
a downward change in `[-0.15, -0.05]`; the new value
`current_iv * (1 + change)` is clamped into
`[0.5 * base_iv, 2.5 * base_iv]`. -/
theorem C6_biased_random_walk_step (cur : ℝ) (s : String) (d : StepDraw)
    (hd : ValidDraw d) :
    ∃ change : ℝ,
      simulate_iv_change cur s d =
        max (get_base_iv s * 0.5)
          (min (get_base_iv s * 2.5) (cur * (1 + change))) ∧
      (d.r1 < 0.85 → -0.05 ≤ change ∧ change ≤ 0.05) ∧
      (¬ d.r1 < 0.85 → d.r2 < 0.7 → 0.05 ≤ change ∧ change ≤ 0.25) ∧
      (¬ d.r1 < 0.85 → ¬ d.r2 < 0.7 → -0.15 ≤ change ∧ change ≤ -0.05) := by
  obtain ⟨-, -, -, -, ht0, ht1⟩ := hd
  refine ⟨_, simulate_iv_change_eq cur s d, ?_, ?_, ?_⟩
  · intro h1
    rw [if_pos h1]
    unfold uniform_from
    constructor <;> nlinarith
  · intro h1 h2
    rw [if_neg h1, if_pos h2]
    unfold uniform_from
    constructor <;> nlinarith
  · intro h1 h2
    rw [if_neg h1, if_neg h2]
    unfold uniform_from
    constructor <;> nlinarith

/-- Witness for C6 at a concrete state and draw. -/
theorem C6_biased_random_walk_step_witness :
    ∃ change : ℝ,
      simulate_iv_change 20 "NIFTY" ⟨1/2, 1/2, 1/2⟩ =
        max (get_base_iv "NIFTY" * 0.5)
          (min (get_base_iv "NIFTY" * 2.5) (20 * (1 + change))) ∧
      ((1 : ℝ)/2 < 0.85 → -0.05 ≤ change ∧ change ≤ 0.05) ∧
      (¬ (1 : ℝ)/2 < 0.85 → (1 : ℝ)/2 < 0.7 → 0.05 ≤ change ∧ change ≤ 0.25) ∧
      (¬ (1 : ℝ)/2 < 0.85 → ¬ (1 : ℝ)/2 < 0.7 →
        -0.15 ≤ change ∧ change ≤ -0.05) :=
  C6_biased_random_walk_step 20 "NIFTY" ⟨1/2, 1/2, 1/2⟩
    (by norm_num [ValidDraw])

/-- Claim C7: for every `T ≤ 0`, `black_scholes_price` returns the intrinsic
value — `max(0, S-K)` for a call and `max(0, K-S)` for a put. -/
theorem C7_intrinsic_value_at_expiry (S K T r sigma : ℝ) (hT : T ≤ 0) :
    black_scholes_price S K T r sigma "call" = Except.ok (max 0 (S - K)) ∧
    black_scholes_price S K T r sigma "put" = Except.ok (max 0 (K - S)) := by
  constructor <;> simp [black_scholes_price, hT]

/-- Witness for C7 at a concrete input with `T = 0`. -/
theorem C7_intrinsic_value_at_expiry_witness :
    black_scholes_price 3 1 0 (1/2) (1/5) "call" = Except.ok (max 0 (3 - 1)) ∧
    black_scholes_price 3 1 0 (1/2) (1/5) "put" = Except.ok (max 0 (1 - 3)) :=
  C7_intrinsic_value_at_expiry 3 1 0 (1/2) (1/5) (by norm_num)

/-- Claim C9: a fetch-cycle error is caught at the cycle boundary of
`fetch_option_data` and yields the empty quote sequence instead of
propagating; and the detector maps an empty quote sequence to zero alerts
(an `ok []`, not an error) — both through `filter_options_by_delta` under
any context and through `detect_spikes` itself. -/
theorem C9_cycle_failure_is_soft (e : PyErr) (S T r : ℝ) :
    fetch_cycle_boundary (Except.error e) = [] ∧
    filter_options_by_delta [] S T r = Except.ok [] ∧
    detect_spikes (fetch_cycle_boundary (Except.error e)) = Except.ok [] :=
  ⟨rfl, rfl, rfl⟩

/-- Witness for C9 at a concrete error and context. -/
theorem C9_cycle_failure_is_soft_witness :
    fetch_cycle_boundary (Except.error PyErr.runtimeError) = [] ∧
    filter_options_by_delta [] 100 1 (1/20) = Except.ok [] ∧
    detect_spikes (fetch_cycle_boundary (Except.error PyErr.runtimeError)) =
      Except.ok [] :=
  C9_cycle_failure_is_soft PyErr.runtimeError 100 1 (1/20)

/-- Claim C10: `send_notification` attempts every channel regardless of
earlier outcomes — the sent and failed counter increments together account
for every channel in the list — the aggregate returned flag is the logical
OR of the per-channel successes, each `True` return increments the sent
counter and each `False` return or raised exception increments the failed
counter. -/
theorem C10_channel_isolation (outcomes : List ChanOutcome)
    (sent failed : Nat) :
    (send_notification outcomes sent failed).1 = outcomes.any chan_success ∧
    (send_notification outcomes sent failed).2.1 =
      sent + outcomes.countP chan_success ∧
    (send_notification outcomes sent failed).2.2 =
      failed + outcomes.countP (fun o => !chan_success o) ∧
    (send_notification outcomes sent failed).2.1 +
      (send_notification outcomes sent failed).2.2 =
      sent + failed + outcomes.length := by
  unfold send_notification
  rcases outcomes with - | ⟨o, rest⟩
  · simp
  · rw [if_neg (by simp)]
    rw [send_foldl]
    refine ⟨by simp, rfl, rfl, ?_⟩
    have := countP_success_add_not (o :: rest)
    simp only []
    omega

/-- Witness for C10 at a concrete outcome list (one success, one failure,
one raising channel) and concrete counters. -/
theorem C10_channel_isolation_witness :
    (send_notification [ChanOutcome.ret true, ChanOutcome.ret false,
        ChanOutcome.exn] 3 4).1 =
      [ChanOutcome.ret true, ChanOutcome.ret false,
        ChanOutcome.exn].any chan_success ∧
    (send_notification [ChanOutcome.ret true, ChanOutcome.ret false,
        ChanOutcome.exn] 3 4).2.1 =
      3 + [ChanOutcome.ret true, ChanOutcome.ret false,
        ChanOutcome.exn].countP chan_success ∧
    (send_notification [ChanOutcome.ret true, ChanOutcome.ret false,
        ChanOutcome.exn] 3 4).2.2 =
      4 + [ChanOutcome.ret true, ChanOutcome.ret false,
        ChanOutcome.exn].countP (fun o => !chan_success o) ∧
    (send_notification [ChanOutcome.ret true, ChanOutcome.ret false,
        ChanOutcome.exn] 3 4).2.1 +
      (send_notification [ChanOutcome.ret true, ChanOutcome.ret false,
        ChanOutcome.exn] 3 4).2.2 =
      3 + 4 + [ChanOutcome.ret true, ChanOutcome.ret false,
        ChanOutcome.exn].length :=
  C10_channel_isolation [ChanOutcome.ret true, ChanOutcome.ret false,
    ChanOutcome.exn] 3 4

/-!  ### The standard normal distribution  -/

lemma norm_pdf_nonneg (t : ℝ) : 0 ≤ norm_pdf t :=
  div_nonneg (Real.exp_nonneg _) (Real.sqrt_nonneg _)

lemma norm_pdf_eq (t : ℝ) :
    norm_pdf t = (Real.sqrt (2 * Real.pi))⁻¹ * Real.exp (-(2⁻¹ : ℝ) * t ^ 2) := by
  unfold norm_pdf
  rw [show -(t ^ 2) / 2 = -(2⁻¹ : ℝ) * t ^ 2 by ring, div_eq_inv_mul]

lemma norm_pdf_even (t : ℝ) : norm_pdf (-t) = norm_pdf t := by
  unfold norm_pdf
  rw [neg_sq]

lemma integrable_norm_pdf : Integrable norm_pdf := by
  have h :=
    (integrable_exp_neg_mul_sq (show (0 : ℝ) < 2⁻¹ by norm_num)).const_mul
      (Real.sqrt (2 * Real.pi))⁻¹
  exact h.congr (Filter.Eventually.of_forall fun t => (norm_pdf_eq t).symm)

lemma integral_norm_pdf : ∫ t, norm_pdf t = 1 := by
  have hg : ∫ t : ℝ, Real.exp (-(2⁻¹ : ℝ) * t ^ 2) = Real.sqrt (Real.pi / 2⁻¹) :=
    integral_gaussian 2⁻¹
  have hs : Real.sqrt (2 * Real.pi) ≠ 0 := by
    have : (0 : ℝ) < 2 * Real.pi := by positivity
    exact (Real.sqrt_pos.mpr this).ne'
  calc ∫ t, norm_pdf t
      = ∫ t, (Real.sqrt (2 * Real.pi))⁻¹ * Real.exp (-(2⁻¹ : ℝ) * t ^ 2) :=
        integral_congr_ae (Filter.Eventually.of_forall norm_pdf_eq)
    _ = (Real.sqrt (2 * Real.pi))⁻¹ *
          ∫ t, Real.exp (-(2⁻¹ : ℝ) * t ^ 2) := integral_mul_left _ _
    _ = 1 := by
        rw [hg, show Real.pi / (2⁻¹ : ℝ) = 2 * Real.pi by ring,
          inv_mul_cancel₀ hs]

lemma norm_cdf_nonneg (x : ℝ) : 0 ≤ norm_cdf x :=
  setIntegral_nonneg measurableSet_Iic fun t _ => norm_pdf_nonneg t

lemma norm_cdf_mono {a b : ℝ} (h : a ≤ b) : norm_cdf a ≤ norm_cdf b := by
  unfold norm_cdf
  exact setIntegral_mono_set integrable_norm_pdf.integrableOn
    (Filter.Eventually.of_forall fun t => norm_pdf_nonneg t)
    (HasSubset.Subset.eventuallyLE (Iic_subset_Iic.mpr h))

lemma norm_cdf_neg (x : ℝ) : norm_cdf (-x) = 1 - norm_cdf x := by
  have h1 : norm_cdf (-x) = ∫ t in Ioi x, norm_pdf t := by
    unfold norm_cdf
    calc ∫ t in Iic (-x), norm_pdf t
        = ∫ t in Iic (-x), norm_pdf (-t) :=
          setIntegral_congr_fun measurableSet_Iic
            fun t _ => (norm_pdf_even t).symm
      _ = ∫ t in Ioi x, norm_pdf t := by
          have h := integral_comp_neg_Iic (-x) norm_pdf
          simpa using h
  have h2 : norm_cdf x + ∫ t in Ioi x, norm_pdf t = 1 := by
    unfold norm_cdf
    rw [intervalIntegral.integral_Iic_add_Ioi integrable_norm_pdf.integrableOn
      integrable_norm_pdf.integrableOn, integral_norm_pdf]
  linarith [h1, h2]

lemma norm_cdf_zero : norm_cdf 0 = 1 / 2 := by
  have := norm_cdf_neg 0
  rw [neg_zero] at this
  linarith

lemma norm_cdf_sub_cdf (a b : ℝ) :
    norm_cdf b - norm_cdf a = ∫ t in a..b, norm_pdf t :=
  intervalIntegral.integral_Iic_sub_Iic integrable_norm_pdf.integrableOn
    integrable_norm_pdf.integrableOn

lemma one_sub_le_exp_neg (u : ℝ) : 1 - u ≤ Real.exp (-u) := by
  have := Real.add_one_le_exp (-u)
  linarith

lemma exp_neg_le_quad (u : ℝ) (hu : 0 ≤ u) :
    Real.exp (-u) ≤ 1 - u + (5 / 8) * u ^ 2 := by
  have h1 : 1 + u / 4 ≤ Real.exp (u / 4) := by
    have := Real.add_one_le_exp (u / 4)
    linarith
  have h0 : (0 : ℝ) ≤ 1 + u / 4 := by linarith
  have h4 : (1 + u / 4) ^ 4 ≤ Real.exp u := by
    calc (1 + u / 4) ^ 4 ≤ (Real.exp (u / 4)) ^ 4 := pow_le_pow_left₀ h0 h1 4
      _ = Real.exp u := by
          rw [← Real.exp_nat_mul]
          congr 1
          push_cast
          ring
  have hpos : (0 : ℝ) < (1 + u / 4) ^ 4 := by positivity
  have hexp : Real.exp (-u) * (1 + u / 4) ^ 4 ≤ 1 := by
    have hm : Real.exp (-u) * (1 + u / 4) ^ 4 ≤ Real.exp (-u) * Real.exp u :=
      mul_le_mul_of_nonneg_left h4 (Real.exp_nonneg _)
    rwa [← Real.exp_add, neg_add_cancel, Real.exp_zero] at hm
  have hmain : 1 ≤ (1 - u + (5 / 8) * u ^ 2) * (1 + u / 4) ^ 4 := by
    nlinarith [pow_nonneg hu 3, pow_nonneg hu 4, pow_nonneg hu 5, pow_nonneg hu 6]
  exact le_of_mul_le_mul_right (hexp.trans hmain) hpos

lemma gauss_integrand_lower (t : ℝ) : 1 - t ^ 2 / 2 ≤ Real.exp (-(t ^ 2) / 2) := by
  have := one_sub_le_exp_neg (t ^ 2 / 2)
  rwa [show -(t ^ 2 / 2) = -(t ^ 2) / 2 by ring] at this

lemma gauss_integrand_upper (t : ℝ) :
    Real.exp (-(t ^ 2) / 2) ≤ 1 - t ^ 2 / 2 + (5 / 32) * t ^ 4 := by
  have h := exp_neg_le_quad (t ^ 2 / 2) (by positivity)
  rw [show -(t ^ 2 / 2) = -(t ^ 2) / 2 by ring] at h
  calc Real.exp (-(t ^ 2) / 2) ≤ 1 - t ^ 2 / 2 + (5 / 8) * (t ^ 2 / 2) ^ 2 := h
    _ = 1 - t ^ 2 / 2 + (5 / 32) * t ^ 4 := by ring

lemma continuous_gauss_exp : Continuous fun t : ℝ => Real.exp (-(t ^ 2) / 2) :=
  Real.continuous_exp.comp (by fun_prop)

lemma integral_poly_lower :
    ∫ t in (0 : ℝ)..(7 / 20), (1 - t ^ 2 / 2) = 16457 / 48000 := by
  rw [intervalIntegral.integral_sub
    ((by fun_prop : Continuous fun _ : ℝ => (1 : ℝ)).intervalIntegrable _ _)
    ((by fun_prop : Continuous fun t : ℝ => t ^ 2 / 2).intervalIntegrable _ _)]
  rw [intervalIntegral.integral_div, integral_pow]
  simp
  norm_num

lemma integral_poly_upper :
    ∫ t in (0 : ℝ)..(7 / 20), (1 - t ^ 2 / 2 + (5 / 32) * t ^ 4) =
      16457 / 48000 + 16807 / 102400000 := by
  rw [intervalIntegral.integral_add
    (((by fun_prop : Continuous fun t : ℝ => 1 - t ^ 2 / 2)).intervalIntegrable _ _)
    ((by fun_prop : Continuous fun t : ℝ => (5 / 32) * t ^ 4).intervalIntegrable _ _)]
  rw [integral_poly_lower, intervalIntegral.integral_const_mul, integral_pow]
  norm_num

lemma J_bounds :
    16457 / 48000 ≤ (∫ t in (0 : ℝ)..(7 / 20), Real.exp (-(t ^ 2) / 2)) ∧
    (∫ t in (0 : ℝ)..(7 / 20), Real.exp (-(t ^ 2) / 2)) ≤
      16457 / 48000 + 16807 / 102400000 := by
  constructor
  · rw [← integral_poly_lower]
    exact intervalIntegral.integral_mono_on (by norm_num)
      ((by fun_prop : Continuous fun t : ℝ => 1 - t ^ 2 / 2).intervalIntegrable _ _)
      (continuous_gauss_exp.intervalIntegrable _ _)
      fun t _ => gauss_integrand_lower t
  · rw [← integral_poly_upper]
    exact intervalIntegral.integral_mono_on (by norm_num)
      (continuous_gauss_exp.intervalIntegrable _ _)
      ((by fun_prop :
        Continuous fun t : ℝ => 1 - t ^ 2 / 2 + (5 / 32) * t ^ 4).intervalIntegrable _ _)
      fun t _ => gauss_integrand_upper t

lemma sqrt_two_pi_bounds :
    25066 / 10000 ≤ Real.sqrt (2 * Real.pi) ∧
    Real.sqrt (2 * Real.pi) ≤ 25067 / 10000 := by
  constructor
  · rw [Real.le_sqrt (by norm_num) (by positivity)]
    nlinarith [Real.pi_gt_d6]
  · rw [Real.sqrt_le_left (by norm_num)]
    nlinarith [Real.pi_lt_d6]

lemma norm_cdf_test_point : |norm_cdf (7 / 20) - 0.6368| < 1 / 10000 := by
  have hI : norm_cdf (7 / 20) - norm_cdf 0 =
      ∫ t in (0 : ℝ)..(7 / 20), norm_pdf t := norm_cdf_sub_cdf 0 (7 / 20)
  have hpdf : (∫ t in (0 : ℝ)..(7 / 20), norm_pdf t) =
      (∫ t in (0 : ℝ)..(7 / 20), Real.exp (-(t ^ 2) / 2)) /
        Real.sqrt (2 * Real.pi) := by
    simp only [norm_pdf]
    exact intervalIntegral.integral_div _ _
  rw [norm_cdf_zero, hpdf] at hI
  have hJ := J_bounds
  have hs := sqrt_two_pi_bounds
  have hspos : (0 : ℝ) < Real.sqrt (2 * Real.pi) := by
    calc (0 : ℝ) < 25066 / 10000 := by norm_num
      _ ≤ _ := hs.1
  have hlow : (1367 / 10000 : ℝ) <
      (∫ t in (0 : ℝ)..(7 / 20), Real.exp (-(t ^ 2) / 2)) /
        Real.sqrt (2 * Real.pi) := by
    rw [lt_div_iff₀ hspos]
    nlinarith [hJ.1, hs.2]
  have hhigh : (∫ t in (0 : ℝ)..(7 / 20), Real.exp (-(t ^ 2) / 2)) /
      Real.sqrt (2 * Real.pi) < 1369 / 10000 := by
    rw [div_lt_iff₀ hspos]
    nlinarith [hJ.2, hs.1]
  rw [abs_lt]
  constructor <;> nlinarith [hI, hlow, hhigh]

/-!  ### Evaluation lemmas for the pricing functions on positive inputs  -/

lemma option_delta_pos_inputs (S K T r sigma : ℝ) (hS : 0 < S) (hK : 0 < K)
    (hT : 0 < T) (hs : 0 < sigma) :
    option_delta S K T r sigma "call" =
      Except.ok (norm_cdf (d1val S K T r sigma)) ∧
    option_delta S K T r sigma "put" =
      Except.ok (norm_cdf (d1val S K T r sigma) - 1) := by
  have h1 : pyDiv S K = Except.ok (S / K) := by rw [pyDiv, if_neg hK.ne']
  have h2 : pyLog (S / K) = Except.ok (Real.log (S / K)) := by
    rw [pyLog, if_neg (not_le.mpr (div_pos hS hK))]
  have h3 : pySqrt T = Except.ok (Real.sqrt T) := by
    rw [pySqrt, if_neg (not_lt.mpr hT.le)]
  have h4 : sigma * Real.sqrt T ≠ 0 := by
    have hsq := Real.sqrt_pos.mpr hT
    positivity
  have h5 : pyDiv (Real.log (S / K) + (r + sigma ^ 2 / 2) * T)
      (sigma * Real.sqrt T) = Except.ok (d1val S K T r sigma) := by
    rw [pyDiv, if_neg h4]
    rfl
  constructor
  · simp [option_delta, h1, h2, h3, h5]
  · simp only [option_delta, h1, h2, h3, h5]
    rw [if_neg (by decide), norm_cdf_neg]
    rw [Except.ok.injEq]
    ring

lemma bs_price_call_pos_inputs (S K T r sigma : ℝ) (hS : 0 < S) (hK : 0 < K)
    (hT : 0 < T) (hs : sigma ≠ 0) :
    black_scholes_price S K T r sigma "call" =
      Except.ok (S * norm_cdf (d1val S K T r sigma) -
        K * Real.exp (-r * T) *
          norm_cdf (d1val S K T r sigma - sigma * Real.sqrt T)) := by
  have h1 : pyDiv S K = Except.ok (S / K) := by rw [pyDiv, if_neg hK.ne']
  have h2 : pyLog (S / K) = Except.ok (Real.log (S / K)) := by
    rw [pyLog, if_neg (not_le.mpr (div_pos hS hK))]
  have h3 : pySqrt T = Except.ok (Real.sqrt T) := by
    rw [pySqrt, if_neg (not_lt.mpr hT.le)]
  have h4 : sigma * Real.sqrt T ≠ 0 :=
    mul_ne_zero hs (Real.sqrt_pos.mpr hT).ne'
  have h5 : pyDiv (Real.log (S / K) + (r + sigma ^ 2 / 2) * T)
      (sigma * Real.sqrt T) = Except.ok (d1val S K T r sigma) := by
    rw [pyDiv, if_neg h4]
    rfl
  simp [black_scholes_price, not_le.mpr hT, h1, h2, h3, h5]

lemma bs_call_expr_nonneg (S K T r sigma : ℝ) (hK : 0 ≤ K) (hKS : K ≤ S)
    (hrT : 0 ≤ r * T) (hsT : 0 ≤ sigma * Real.sqrt T) :
    0 ≤ S * norm_cdf (d1val S K T r sigma) -
      K * Real.exp (-r * T) *
        norm_cdf (d1val S K T r sigma - sigma * Real.sqrt T) := by
  have hmono : norm_cdf (d1val S K T r sigma - sigma * Real.sqrt T) ≤
      norm_cdf (d1val S K T r sigma) := norm_cdf_mono (by linarith)
  have h0 : 0 ≤ norm_cdf (d1val S K T r sigma - sigma * Real.sqrt T) :=
    norm_cdf_nonneg _
  have h0a : 0 ≤ norm_cdf (d1val S K T r sigma) := norm_cdf_nonneg _
  have hexp : Real.exp (-r * T) ≤ 1 := by
    rw [← Real.exp_zero]
    exact Real.exp_le_exp.mpr (by linarith)
  have hexp0 : 0 < Real.exp (-r * T) := Real.exp_pos _
  nlinarith [mul_nonneg (mul_nonneg hK h0) (sub_nonneg.mpr hexp),
    mul_nonneg hK (sub_nonneg.mpr hmono),
    mul_nonneg (sub_nonneg.mpr hKS) h0a]

/-- Claim C3: `implied_volatility` fails with the explicit no-result value,
never an escaping exception.  The catch-all `except` is embedded as the
total match on `implied_volatility_raw`, so the first conjunct shows every
raised error — including a bracket without a sign change (`ValueError`), an
exhausted 1000-iteration budget (`RuntimeError`) and a domain error from the
objective — becomes `none`; the second conjunct shows directly that whenever
the price objective has the same sign at both bracket ends `0.0001` and
`5.0` (no sign change, e.g. a market price below intrinsic value), the
result is `none` and never a number. -/
theorem C3_no_result_never_raises (p S K T r : ℝ) (t : String) :
    (∀ e : PyErr, implied_volatility_raw p S K T r t = Except.error e →
      implied_volatility p S K T r t = none) ∧
    (∀ fa fb : ℝ, ivObjective p S K T r t 0.0001 = Except.ok fa →
      ivObjective p S K T r t 5.0 = Except.ok fb → 0 < fa * fb →
      implied_volatility p S K T r t = none ∧
      ∀ v : ℝ, implied_volatility p S K T r t ≠ some v) := by
  constructor
  · intro e he
    simp [implied_volatility, he]
  · intro fa fb hfa hfb hpos
    have hraw : implied_volatility_raw p S K T r t =
        Except.error PyErr.valueError := by
      simp only [implied_volatility_raw, brentq, hfa, hfb, gt_iff_lt,
        if_pos hpos]
    have hnone : implied_volatility p S K T r t = none := by
      simp [implied_volatility, hraw]
    refine ⟨hnone, fun v h => ?_⟩
    rw [hnone] at h
    exact Option.noConfusion h

/-- Witness for C3: a negative market price (below intrinsic value) at
otherwise ordinary inputs gives `none`. -/
theorem C3_no_result_never_raises_witness :
    implied_volatility (-1) 100 100 1 (1/20) "call" = none := by
  have hb1 := bs_price_call_pos_inputs 100 100 1 (1/20) 0.0001
    (by norm_num) (by norm_num) (by norm_num) (by norm_num)
  have hb2 := bs_price_call_pos_inputs 100 100 1 (1/20) 5.0
    (by norm_num) (by norm_num) (by norm_num) (by norm_num)
  have hn1 := bs_call_expr_nonneg 100 100 1 (1/20) 0.0001
    (by norm_num) (by norm_num) (by norm_num) (by positivity)
  have hn2 := bs_call_expr_nonneg 100 100 1 (1/20) 5.0
    (by norm_num) (by norm_num) (by norm_num) (by positivity)
  have hfa : ivObjective (-1) 100 100 1 (1/20) "call" 0.0001 =
      Except.ok ((100 * norm_cdf (d1val 100 100 1 (1/20) 0.0001) -
        100 * Real.exp (-(1/20) * 1) *
          norm_cdf (d1val 100 100 1 (1/20) 0.0001 - 0.0001 * Real.sqrt 1)) -
        (-1)) := by
    rw [ivObjective, hb1]
    rfl
  have hfb : ivObjective (-1) 100 100 1 (1/20) "call" 5.0 =
      Except.ok ((100 * norm_cdf (d1val 100 100 1 (1/20) 5.0) -
        100 * Real.exp (-(1/20) * 1) *
          norm_cdf (d1val 100 100 1 (1/20) 5.0 - 5.0 * Real.sqrt 1)) -
        (-1)) := by
    rw [ivObjective, hb2]
    rfl
  exact ((C3_no_result_never_raises (-1) 100 100 1 (1/20) "call").2 _ _
    hfa hfb (mul_pos (by linarith) (by linarith))).1

/-- Claim C8: on positive inputs `option_delta` returns `N(d1)` for a call
and `N(d1) - 1` for a put (the code's `-N(-d1)` equals `N(d1) - 1` by the
symmetry of the normal distribution), and at
`S=100, K=100, T=1, r=0.05, sigma=0.2` the call delta is within `10⁻⁴` of
`0.6368` and the put delta within `10⁻⁴` of `-0.3632`. -/
theorem C8_delta_formula_and_values :
    (∀ S K T r sigma : ℝ, 0 < S → 0 < K → 0 < T → 0 < sigma →
      option_delta S K T r sigma "call" =
        Except.ok (norm_cdf (d1val S K T r sigma)) ∧
      option_delta S K T r sigma "put" =
        Except.ok (norm_cdf (d1val S K T r sigma) - 1)) ∧
    (∃ dc dp : ℝ,
      option_delta 100 100 1 (1/20) (1/5) "call" = Except.ok dc ∧
      option_delta 100 100 1 (1/20) (1/5) "put" = Except.ok dp ∧
      |dc - 0.6368| < 1 / 10000 ∧ |dp - (-0.3632)| < 1 / 10000) := by
  have hd1 : d1val 100 100 1 (1/20) (1/5) = 7 / 20 := by
    unfold d1val
    rw [show (100 : ℝ) / 100 = 1 by norm_num, Real.log_one, Real.sqrt_one]
    norm_num
  have hstruct := fun S K T r sigma hS hK hT hs =>
    option_delta_pos_inputs S K T r sigma hS hK hT hs
  refine ⟨hstruct, ⟨norm_cdf (7/20), norm_cdf (7/20) - 1, ?_, ?_, ?_, ?_⟩⟩
  · rw [(option_delta_pos_inputs 100 100 1 (1/20) (1/5)
      (by norm_num) (by norm_num) (by norm_num) (by norm_num)).1, hd1]
  · rw [(option_delta_pos_inputs 100 100 1 (1/20) (1/5)
      (by norm_num) (by norm_num) (by norm_num) (by norm_num)).2, hd1]
  · exact norm_cdf_test_point
  · have h := norm_cdf_test_point
    rw [abs_lt] at h ⊢
    constructor <;> [nlinarith [h.1]; nlinarith [h.2]]

/-- Witness for C8: the structural conjunct applied at the concrete test
input. -/
theorem C8_delta_formula_and_values_witness :
    option_delta 100 100 1 (1/20) (1/5) "call" =
      Except.ok (norm_cdf (d1val 100 100 1 (1/20) (1/5))) ∧
    option_delta 100 100 1 (1/20) (1/5) "put" =
      Except.ok (norm_cdf (d1val 100 100 1 (1/20) (1/5)) - 1) :=
  C8_delta_formula_and_values.1 100 100 1 (1/20) (1/5)
    (by norm_num) (by norm_num) (by norm_num) (by norm_num)

end IVSpike
